import Mathlib

/-!
Verification of the sabaipics face-recognition services.

Shallow embedding of the two recognition services:
* `AppsRecognition` — `src/apps/recognition/main.py` (DeepFace service: in-memory
  collection store, index-faces, search-faces-by-image).
* `InfraRecognition` — `src/infra/recognition/main.py` (InsightFace extraction
  service: stateless extract endpoint, session-recycling wrapper).

Python floats are modelled as real numbers; external library calls
(DeepFace.represent, FaceAnalysis.get, PIL decoding, httpx fetching) are
opaque to the services and are modelled as oracle data carried by the inputs.
-/

open scoped Classical

/-- HTTP-level error raised by a handler.  `http s d` is an explicit
`HTTPException(status_code = s, detail = d)` / `JSONResponse(status_code = s)`;
`unhandled` is a Python exception escaping the handler body. -/
inductive HError where
  | http (status : Nat) (detail : String)
  | unhandled

/-- Status code a handler error surfaces with.  FastAPI/Starlette convert an
uncaught exception into an HTTP 500 response (framework behaviour). -/
def HError.statusCode : HError → Nat
  | .http s _ => s
  | .unhandled => 500

/-- `4xx` status range. -/
def is_client_error (n : Nat) : Prop := 400 ≤ n ∧ n < 500

/-- Python `x or d` for an optional int field: `None` and `0` are falsy. -/
def py_or_int (x : Option ℤ) (d : ℤ) : ℤ :=
  match x with
  | none => d
  | some v => if v = 0 then d else v

/-- Python `x or d` for an optional float field: `None` and `0.0` are falsy. -/
noncomputable def py_or_float (x : Option ℝ) (d : ℝ) : ℝ :=
  match x with
  | none => d
  | some v => if v = 0 then d else v

/-- Python slicing `l[:n]`, including the negative-index case
(`l[:-k]` drops the last `k` elements). -/
def pyslice {α : Type} (n : ℤ) (l : List α) : List α :=
  if 0 ≤ n then l.take n.toNat else l.take (l.length - (-n).toNat)

namespace AppsRecognition

/-- `MIN_CONFIDENCE` (env default `"0.5"`). -/
noncomputable def MIN_CONFIDENCE : ℝ := 0.5

/-- `MAX_FACES_PER_IMAGE` (env default `"100"`). -/
def MAX_FACES_PER_IMAGE : ℤ := 100

/-- `MODEL_NAME` (env default `"ArcFace"`). -/
def MODEL_NAME : String := "ArcFace"

/-- A pixel-space bounding box dict `{x, y, w, h}`.  Both producers
(`DeepFace.represent`'s `facial_area` and the InsightFace conversion) populate
all four keys, so the `bbox.get(key, 0)` defaults in the source are modelled
as total fields. -/
structure PixelBBox where
  x : ℝ
  y : ℝ
  w : ℝ
  h : ℝ

/-- AWS-style relative bounding box. -/
structure AwsBBox where
  Width : ℝ
  Height : ℝ
  Left : ℝ
  Top : ℝ

/-- `to_aws_bbox`: convert pixel bbox to AWS-style relative bbox, guarding each
division by its own image dimension. -/
noncomputable def to_aws_bbox (bbox : PixelBBox) (img_width img_height : ℕ) : AwsBBox :=
  { Width := if 0 < img_width then bbox.w / img_width else 0
    Height := if 0 < img_height then bbox.h / img_height else 0
    Left := if 0 < img_width then bbox.x / img_width else 0
    Top := if 0 < img_height then bbox.y / img_height else 0 }

/-- `np.dot` of two equal-length vectors (sum of pointwise products). -/
noncomputable def np_dot (a b : List ℝ) : ℝ :=
  (List.zipWith (fun x y => x * y) a b).sum

/-- `np.linalg.norm`: the L2 norm. -/
noncomputable def np_norm (a : List ℝ) : ℝ :=
  Real.sqrt (np_dot a a)

/-- `cosine_similarity`: dot product over the product of L2 norms, `0.0` when
either norm is zero. -/
noncomputable def cosine_similarity (a b : List ℝ) : ℝ :=
  if np_norm a = 0 ∨ np_norm b = 0 then 0
  else np_dot a b / (np_norm a * np_norm b)

/-- One entry of the list returned by `DeepFace.represent` (opaque external
call): an embedding, a `facial_area` pixel box, and a `face_confidence`
(whose `r.get("face_confidence", 1.0)` default is never exercised because
DeepFace populates the key). -/
structure RawDF where
  embedding : List ℝ
  facial_area : PixelBBox
  face_confidence : ℝ

/-- A decoded query/index image: its pixel dimensions together with what
`DeepFace.represent` returns on it (`.error` models the call raising). -/
structure DFImage where
  width : ℕ
  height : ℕ
  represent : Except Unit (List RawDF)

/-- Request image bytes, abstracted by decodability: `undecodable` bytes make
`decode_image` raise, `ok` bytes decode to the carried array. -/
inductive PyImage where
  | undecodable
  | ok (img : DFImage)

/-- `decode_image`: base64-decode + PIL open; raises (`.error`) on
undecodable bytes. -/
def decode_image : PyImage → Except Unit DFImage
  | .undecodable => .error ()
  | .ok img => .ok img

/-- A detected face as built by `extract_faces`. -/
structure DetFace where
  embedding : List ℝ
  bbox : PixelBBox
  confidence : ℝ

/-- `extract_faces` (DeepFace variant): truncate the `DeepFace.represent`
result to `max_faces`, keep entries with confidence `>= MIN_CONFIDENCE`;
any exception from the backend yields `[]`. -/
noncomputable def extract_faces (img : DFImage) (max_faces : ℤ) : List DetFace :=
  match img.represent with
  | .error _ => []
  | .ok results =>
    (pyslice max_faces results).filterMap fun r =>
      if MIN_CONFIDENCE ≤ r.face_confidence then
        some { embedding := r.embedding, bbox := r.facial_area, confidence := r.face_confidence }
      else none

/-- A stored face record (one element of `collections[cid]["faces"]`). -/
structure StoredFace where
  face_id : String
  external_image_id : String
  embedding : List ℝ
  bbox : PixelBBox
  confidence : ℝ

/-- The in-memory `collections` dict, keyed by collection id. -/
abbrev Store := List (String × List StoredFace)

/-- Dict membership/lookup: `collections[collection_id]`. -/
def Store.lookup (store : Store) (cid : String) : Option (List StoredFace) :=
  List.lookup cid store

/-- `del collections[collection_id]`. -/
def Store.erase (store : Store) (cid : String) : Store :=
  store.filter fun p => !(p.1 == cid)

/-- `collections[collection_id]["faces"].append(...)` for a batch of records. -/
def Store.append_faces (store : Store) (cid : String) (recs : List StoredFace) : Store :=
  store.map fun p => if p.1 == cid then (p.1, p.2 ++ recs) else p

/-- Response of `POST /collections`. -/
structure CreateCollectionResponse where
  StatusCode : Nat
  CollectionArn : String
  FaceModelVersion : String

/-- `create_collection`: 400 if the id exists, otherwise insert an empty
collection. -/
def create_collection (store : Store) (cid : String) :
    Except HError CreateCollectionResponse × Store :=
  if (Store.lookup store cid).isSome then
    (.error (.http 400 "Collection already exists"), store)
  else
    (.ok { StatusCode := 200
           CollectionArn := "deepface:" ++ cid
           FaceModelVersion := "deepface-" ++ MODEL_NAME },
     (cid, []) :: store)

/-- Response of `DELETE /collections/id`. -/
structure DeleteCollectionResponse where
  StatusCode : Nat

/-- `delete_collection`: 404 `ResourceNotFoundException` if absent, otherwise
remove the collection (and with it all its face records). -/
def delete_collection (store : Store) (cid : String) :
    Except HError DeleteCollectionResponse × Store :=
  if (Store.lookup store cid).isNone then
    (.error (.http 404 "ResourceNotFoundException"), store)
  else
    (.ok { StatusCode := 200 }, Store.erase store cid)

/-- `IndexFacesRequest` (the pydantic model; an absent `MaxFaces` field
defaults to `100`, an explicit JSON `null` is `none`). -/
structure IndexFacesRequest where
  Image : PyImage
  ExternalImageId : String
  MaxFaces : Option ℤ

/-- The `Face` object of an indexed face record. -/
structure FaceRecordFace where
  FaceId : String
  BoundingBox : AwsBBox
  ExternalImageId : String
  Confidence : ℝ

/-- The `FaceDetail` object of an indexed face record. -/
structure FaceDetail where
  BoundingBox : AwsBBox
  Confidence : ℝ

/-- One element of the `FaceRecords` response list. -/
structure FaceRecord where
  Face : FaceRecordFace
  FaceDetail : FaceDetail

/-- Response of `POST /collections/id/index-faces`.  `UnindexedFaces` is
always the empty list in the source, so its element type is irrelevant. -/
structure IndexFacesResponse where
  FaceRecords : List FaceRecord
  UnindexedFaces : List Unit
  FaceModelVersion : String

/-- The per-face body of the indexing loop, storage side: mint a fresh
`face_id` (`str(uuid.uuid4())`, modelled by the supply `uuid` applied at the
face's position) and attach the caller's label.  -/
def mint_stored (uuid : ℕ → String) (ext : String) : ℕ → List DetFace → List StoredFace
  | _, [] => []
  | i, f :: fs =>
    { face_id := uuid i, external_image_id := ext, embedding := f.embedding
      bbox := f.bbox, confidence := f.confidence } :: mint_stored uuid ext (i + 1) fs

/-- The per-face body of the indexing loop, response side. -/
noncomputable def mint_records (uuid : ℕ → String) (ext : String) (iw ih : ℕ) :
    ℕ → List DetFace → List FaceRecord
  | _, [] => []
  | i, f :: fs =>
    { Face := { FaceId := uuid i, BoundingBox := to_aws_bbox f.bbox iw ih
                ExternalImageId := ext, Confidence := f.confidence * 100 }
      FaceDetail := { BoundingBox := to_aws_bbox f.bbox iw ih
                      Confidence := f.confidence * 100 } } :: mint_records uuid ext iw ih (i + 1) fs

/-- `index_faces` handler: 404 on unknown collection; decode (an exception
escapes the handler unhandled); extract with the capped max-face count; store
each detected face under a fresh id and return the caller-facing records. -/
noncomputable def index_faces (store : Store) (cid : String)
    (request : IndexFacesRequest) (uuid : ℕ → String) :
    Except HError IndexFacesResponse × Store :=
  match Store.lookup store cid with
  | none => (.error (.http 404 "ResourceNotFoundException"), store)
  | some _ =>
    match decode_image request.Image with
    | .error _ => (.error .unhandled, store)
    | .ok img =>
      let max_faces := min (py_or_int request.MaxFaces 100) MAX_FACES_PER_IMAGE
      let faces := extract_faces img max_faces
      (.ok { FaceRecords := mint_records uuid request.ExternalImageId img.width img.height 0 faces
             UnindexedFaces := []
             FaceModelVersion := "deepface-" ++ MODEL_NAME },
       Store.append_faces store cid (mint_stored uuid request.ExternalImageId 0 faces))

/-- `SearchFacesByImageRequest` (pydantic defaults: absent `MaxFaces` is `20`,
absent `FaceMatchThreshold` is `80.0`; explicit JSON `null` is `none`). -/
structure SearchFacesByImageRequest where
  Image : PyImage
  MaxFaces : Option ℤ
  FaceMatchThreshold : Option ℝ

/-- The `Face` object of a search match. -/
structure MatchedFace where
  FaceId : String
  ExternalImageId : String
  Confidence : ℝ

/-- One element of the `FaceMatches` response list. -/
structure FaceMatch where
  Similarity : ℝ
  Face : MatchedFace

/-- The match dict built for one stored face that passed the threshold. -/
noncomputable def mk_face_match (query_embedding : List ℝ) (stored : StoredFace) : FaceMatch :=
  { Similarity := cosine_similarity query_embedding stored.embedding * 100
    Face := { FaceId := stored.face_id
              ExternalImageId := stored.external_image_id
              Confidence := stored.confidence * 100 } }

/-- Sort comparator used by `matches.sort(key = Similarity, reverse = True)`:
Python's sort is stable, with `reverse` only flipping the key comparison. -/
noncomputable def match_le (a b : FaceMatch) : Bool :=
  decide (b.Similarity ≤ a.Similarity)

/-- The match-construction / filter / sort / truncate pipeline of the search
handler (source lines 270-289). -/
noncomputable def search_matches (query_embedding : List ℝ) (stored_faces : List StoredFace)
    (threshold_req : Option ℝ) (max_faces_req : Option ℤ) : List FaceMatch :=
  let threshold := py_or_float threshold_req 80 / 100
  let match_list :=
    (stored_faces.filter fun s =>
      decide (threshold ≤ cosine_similarity query_embedding s.embedding)).map
      (mk_face_match query_embedding)
  pyslice (py_or_int max_faces_req 20) (match_list.mergeSort match_le)

/-- The matches a given query embedding retains from a list of stored faces at
internal threshold `t`, in encounter order (before sorting/truncation). -/
noncomputable def qualifying_matches (query_embedding : List ℝ) (t : ℝ)
    (stored_faces : List StoredFace) : List FaceMatch :=
  (stored_faces.filter fun s =>
    decide (t ≤ cosine_similarity query_embedding s.embedding)).map
    (mk_face_match query_embedding)

/-- Response of `POST /collections/id/search-faces-by-image`;
`SearchedFaceBoundingBox` is `none` for the empty dict returned when no face
is detected. -/
structure SearchResponse where
  SearchedFaceBoundingBox : Option AwsBBox
  SearchedFaceConfidence : ℝ
  FaceMatches : List FaceMatch
  FaceModelVersion : String

/-- `search_faces_by_image` handler: 404 on unknown collection; decode (an
exception escapes unhandled); extract the query face with `max_faces = 1`;
empty success when no face; otherwise filter/sort/truncate the stored faces
by cosine similarity. -/
noncomputable def search_faces_by_image (store : Store) (cid : String)
    (request : SearchFacesByImageRequest) : Except HError SearchResponse :=
  match Store.lookup store cid with
  | none => .error (.http 404 "ResourceNotFoundException")
  | some stored_faces =>
    match decode_image request.Image with
    | .error _ => .error .unhandled
    | .ok img =>
      match extract_faces img 1 with
      | [] =>
        .ok { SearchedFaceBoundingBox := none
              SearchedFaceConfidence := 0
              FaceMatches := []
              FaceModelVersion := "deepface-" ++ MODEL_NAME }
      | query_face :: _ =>
        .ok { SearchedFaceBoundingBox := some (to_aws_bbox query_face.bbox img.width img.height)
              SearchedFaceConfidence := query_face.confidence * 100
              FaceMatches := search_matches query_face.embedding stored_faces
                request.FaceMatchThreshold request.MaxFaces
              FaceModelVersion := "deepface-" ++ MODEL_NAME }

end AppsRecognition

namespace InfraRecognition

/-- `MIN_CONFIDENCE` (env default `"0.5"`). -/
noncomputable def MIN_CONFIDENCE : ℝ := 0.5

/-- `MAX_FACES_PER_IMAGE` (env default `"100"`). -/
def MAX_FACES_PER_IMAGE : ℤ := 100

/-- `MAX_IMAGE_BYTES` (env default: 10 MB). -/
def MAX_IMAGE_BYTES : ℕ := 10 * 1024 * 1024

/-- `MODEL_PACK` (env default `"buffalo_l"`). -/
def MODEL_PACK : String := "buffalo_l"

/-- State of a `FaceAnalysisWrapper`: the call counter, the generation of the
loaded `FaceAnalysis` instance (how many times `_load` has run, starting at 1
from `__init__`), and two ghost tallies — inferences served by the current
instance, and the maximum served by any retired instance. -/
structure WrapperState where
  call_count : ℕ
  generation : ℕ
  cur_served : ℕ
  prev_max_served : ℕ

/-- `FaceAnalysisWrapper.__init__`, which ends in `self._load()`
(`_call_count = 0`, fresh instance, nothing served yet). -/
def WrapperState.init : WrapperState :=
  { call_count := 0, generation := 1, cur_served := 0, prev_max_served := 0 }

/-- `FaceAnalysisWrapper.get`: increment the counter; if it has reached
`recycle_every`, release the old instance and `_load` a fresh one (resetting
the counter) before serving; finally serve the inference with the current
instance (tracked by the ghost tallies). -/
def wrapper_get (recycle_every : ℕ) (s : WrapperState) : WrapperState :=
  let c := s.call_count + 1
  if recycle_every ≤ c then
    { call_count := 0
      generation := s.generation + 1
      cur_served := 1
      prev_max_served := max s.prev_max_served s.cur_served }
  else
    { call_count := c
      generation := s.generation
      cur_served := s.cur_served + 1
      prev_max_served := s.prev_max_served }

/-- The wrapper state after `n` calls to `get` on a freshly constructed
wrapper with threshold `recycle_every`. -/
def wrapper_run (recycle_every : ℕ) : ℕ → WrapperState
  | 0 => WrapperState.init
  | n + 1 => wrapper_get recycle_every (wrapper_run recycle_every n)

/-- One face object returned by `FaceAnalysis.get` (opaque external call):
detection score, corner-format bounding box (the values after the source's
`astype(int)` cast), and embedding. -/
structure RawIF where
  det_score : ℝ
  x1 : ℤ
  y1 : ℤ
  x2 : ℤ
  y2 : ℤ
  embedding : List ℝ

/-- A pixel-space bounding box dict `{x, y, w, h}` with integer entries, as
built by the InsightFace `extract_faces`. -/
structure PixelBBox where
  x : ℤ
  y : ℤ
  w : ℤ
  h : ℤ

/-- A detected face as built by the InsightFace `extract_faces`. -/
structure DetFace where
  embedding : List ℝ
  bbox : PixelBBox
  confidence : ℝ

/-- Sort comparator of `sorted(faces, key = det_score, reverse = True)`
(stable, descending by detection score). -/
noncomputable def raw_le (f g : RawIF) : Bool :=
  decide (g.det_score ≤ f.det_score)

/-- `extract_faces` (InsightFace variant): sort the backend faces by
descending detection score, truncate to `max_faces`, skip faces whose score is
below `min_confidence`, and convert the corner boxes to `{x, y, w, h}`; any
exception from the backend yields `[]`.  The backend result (or its failure)
is the `analysis` oracle. -/
noncomputable def extract_faces (analysis : Except Unit (List RawIF))
    (max_faces : ℤ) (min_confidence : ℝ) : List DetFace :=
  match analysis with
  | .error _ => []
  | .ok faces =>
    (pyslice max_faces (faces.mergeSort raw_le)).filterMap fun f =>
      if f.det_score < min_confidence then none
      else
        some { embedding := f.embedding
               bbox := { x := f.x1, y := f.y1, w := f.x2 - f.x1, h := f.y2 - f.y1 }
               confidence := f.det_score }

/-- `ExtractRequest` (pydantic model of `POST /extract`). -/
structure ExtractRequest where
  image : Option String
  image_url : Option String
  max_faces : Option ℤ
  min_confidence : Option ℝ

/-- `request.image is not None and len(request.image) > 0`. -/
def has_image (r : ExtractRequest) : Bool :=
  match r.image with
  | none => false
  | some s => decide (0 < s.length)

/-- `request.image_url is not None and len(request.image_url) > 0`. -/
def has_url (r : ExtractRequest) : Bool :=
  match r.image_url with
  | none => false
  | some s => decide (0 < s.length)

/-- A decoded image on the InsightFace side: pixel dimensions plus what
`face_app.get` returns on it (`.error` models the call raising). -/
structure IFImage where
  width : ℕ
  height : ℕ
  analysis : Except Unit (List RawIF)

/-- Content fetched from an `image_url`: its byte length and the outcome of
PIL-decoding it. -/
structure FetchedBytes where
  length : ℕ
  decoded : Except Unit IFImage

/-- The external world of the extract endpoint: the httpx fetch (`.error`
models a network/HTTP-status failure) and the base64 + PIL `decode_image`
(`.error` models undecodable bytes). -/
structure IFBackend where
  fetch : String → Except Unit FetchedBytes
  decode64 : String → Except Unit IFImage

/-- Relative bounding box of the extract response. -/
structure BoundingBoxResponse where
  x : ℝ
  y : ℝ
  width : ℝ
  height : ℝ

/-- One face of the extract response. -/
structure DetectedFaceResponse where
  embedding : List ℝ
  bounding_box : BoundingBoxResponse
  confidence : ℝ

/-- `ExtractResponse` (the wall-clock `inference_ms` field is not modelled). -/
structure ExtractResponse where
  faces : List DetectedFaceResponse
  image_width : ℕ
  image_height : ℕ
  model : String

/-- The post-decode part of the `extract` handler: cap `max_faces`, default
`min_confidence` only when the field is `None` (a genuine `is not None` check,
not a falsy check), extract, and normalize each bounding box by the image
dimensions with a per-dimension zero guard. -/
noncomputable def extract_core (img : IFImage) (r : ExtractRequest) : ExtractResponse :=
  let max_faces := min (py_or_int r.max_faces 100) MAX_FACES_PER_IMAGE
  let min_conf :=
    match r.min_confidence with
    | none => MIN_CONFIDENCE
    | some v => v
  let faces := extract_faces img.analysis max_faces min_conf
  { faces := faces.map fun f =>
      { embedding := f.embedding
        bounding_box :=
          { x := if 0 < img.width then (f.bbox.x : ℝ) / img.width else 0
            y := if 0 < img.height then (f.bbox.y : ℝ) / img.height else 0
            width := if 0 < img.width then (f.bbox.w : ℝ) / img.width else 0
            height := if 0 < img.height then (f.bbox.h : ℝ) / img.height else 0 }
        confidence := f.confidence }
    image_width := img.width
    image_height := img.height
    model := MODEL_PACK }

/-- The `image_url` branch of the `extract` handler: fetch (failure is a 400
`invalid_image`), reject oversized content, PIL-decode (failure is a 400
`invalid_image`), then extract. -/
noncomputable def url_branch (B : IFBackend) (r : ExtractRequest) :
    Except HError ExtractResponse :=
  match B.fetch ((r.image_url).getD "") with
  | .error _ => .error (.http 400 "invalid_image")
  | .ok bytes =>
    if MAX_IMAGE_BYTES < bytes.length then .error (.http 400 "image_too_large")
    else
      match bytes.decoded with
      | .error _ => .error (.http 400 "invalid_image")
      | .ok img => .ok (extract_core img r)

/-- The base64 branch of the `extract` handler: reject oversized payloads by
the `len * 3 // 4` estimate, `decode_image` (failure is a 400
`invalid_image`), then extract. -/
noncomputable def base64_branch (B : IFBackend) (r : ExtractRequest) :
    Except HError ExtractResponse :=
  let s := (r.image).getD ""
  if MAX_IMAGE_BYTES < s.length * 3 / 4 then .error (.http 400 "image_too_large")
  else
    match B.decode64 s with
    | .error _ => .error (.http 400 "invalid_image")
    | .ok img => .ok (extract_core img r)

/-- The `extract` handler: the mutually-exclusive-source validation runs
first (400 `invalid_image` when both or neither of `image`/`image_url` are
effectively supplied), then the branch for whichever source was given.  The
Modal deployment (`modal_app.py`) implements the identical validation. -/
noncomputable def extract (B : IFBackend) (r : ExtractRequest) :
    Except HError ExtractResponse :=
  if has_image r == has_url r then .error (.http 400 "invalid_image")
  else if has_url r then url_branch B r
  else base64_branch B r

end InfraRecognition

open AppsRecognition

/-! Concrete inputs used by witnesses and counterexamples. -/

/-- A deterministic face-id supply standing in for `str(uuid.uuid4())`. -/
def uuid0 : ℕ → String := fun n => "face-" ++ toString n

/-- A stored face with toy embedding `e1 = [1, 0]`. -/
noncomputable def e1_face : StoredFace :=
  { face_id := "f1", external_image_id := "group.jpg", embedding := [1, 0]
    bbox := ⟨0, 0, 10, 10⟩, confidence := 0.9 }

/-- A stored face with toy embedding `e2 = [0, 1]`. -/
noncomputable def e2_face : StoredFace :=
  { face_id := "f2", external_image_id := "group.jpg", embedding := [0, 1]
    bbox := ⟨0, 0, 10, 10⟩, confidence := 0.8 }

/-- A store holding one collection `"team"` with the two toy faces. -/
noncomputable def teamStore : Store := [("team", [e1_face, e2_face])]

/-- The single face DeepFace reports on the query image. -/
noncomputable def query_raw : RawDF :=
  { embedding := [1, 0], facial_area := ⟨1, 2, 3, 4⟩, face_confidence := 0.9 }

/-- A decodable query image on which DeepFace reports `query_raw`. -/
noncomputable def query_img : DFImage :=
  { width := 100, height := 80, represent := .ok [query_raw] }

/-- The detected face `extract_faces` builds from `query_raw`. -/
noncomputable def q_face : DetFace :=
  { embedding := [1, 0], bbox := ⟨1, 2, 3, 4⟩, confidence := 0.9 }

/-- A search request with explicit threshold 80 and cap 20. -/
noncomputable def search_req : SearchFacesByImageRequest :=
  { Image := .ok query_img, MaxFaces := some 20, FaceMatchThreshold := some 80 }

/-- A decodable image on which DeepFace reports no faces. -/
def img_empty : DFImage := { width := 10, height := 10, represent := .ok [] }

/-- An index request carrying `img_empty`. -/
def ireq_empty : IndexFacesRequest :=
  { Image := .ok img_empty, ExternalImageId := "img-a", MaxFaces := none }

/-- A search request carrying `img_empty`. -/
def sreq_empty : SearchFacesByImageRequest :=
  { Image := .ok img_empty, MaxFaces := none, FaceMatchThreshold := none }

/-- An index request with undecodable image bytes. -/
def ireq_bad : IndexFacesRequest :=
  { Image := .undecodable, ExternalImageId := "x", MaxFaces := none }

/-- A search request with undecodable image bytes. -/
def sreq_bad : SearchFacesByImageRequest :=
  { Image := .undecodable, MaxFaces := none, FaceMatchThreshold := none }

/-- A toy pixel box. -/
noncomputable def bb0 : PixelBBox := ⟨0, 0, 2, 2⟩

/-- A lower-confidence face reported first by the backend. -/
noncomputable def raw_u1 : RawDF :=
  { embedding := [1, 0], facial_area := bb0, face_confidence := 0.6 }

/-- A higher-confidence face reported second by the backend. -/
noncomputable def raw_u2 : RawDF :=
  { embedding := [0, 1], facial_area := bb0, face_confidence := 0.9 }

/-- A decodable image whose backend face list is not sorted by confidence. -/
noncomputable def unsorted_img : DFImage :=
  { width := 10, height := 10, represent := .ok [raw_u1, raw_u2] }

/-- An InsightFace backend whose fetch and decode always fail. -/
def B0 : InfraRecognition.IFBackend :=
  { fetch := fun _ => .error (), decode64 := fun _ => .error () }

/-- An extract request supplying both image sources. -/
def req_both : InfraRecognition.ExtractRequest :=
  { image := some "a", image_url := some "b", max_faces := none, min_confidence := none }

/-- An extract request supplying neither source (the URL as an empty string). -/
def req_neither : InfraRecognition.ExtractRequest :=
  { image := none, image_url := some "", max_faces := none, min_confidence := none }

/-- An extract request supplying only base64 bytes. -/
def req_b64 : InfraRecognition.ExtractRequest :=
  { image := some "abcd", image_url := none, max_faces := none, min_confidence := none }

/-- An InsightFace backend face with a low detection score. -/
noncomputable def iraw_lo : InfraRecognition.RawIF :=
  { det_score := 0.6, x1 := 0, y1 := 0, x2 := 4, y2 := 4, embedding := [1, 0] }

/-- An InsightFace backend face with a high detection score. -/
noncomputable def iraw_hi : InfraRecognition.RawIF :=
  { det_score := 0.9, x1 := 1, y1 := 1, x2 := 5, y2 := 5, embedding := [0, 1] }

/-!
Helper lemmas (shared by several claim theorems).
-/

/-- `np.dot` is symmetric. -/
theorem np_dot_comm (a b : List ℝ) : np_dot a b = np_dot b a := by
  unfold np_dot
  rw [List.zipWith_comm_of_comm (fun x y => x * y) mul_comm a b]

/-- A `filterMap` whose function keeps elements satisfying `p` (mapped through
`g`) is a `filter` followed by a `map`. -/
theorem filterMap_keep_eq_map_filter {α β : Type} (p : α → Prop) [DecidablePred p]
    (g : α → β) (l : List α) :
    (l.filterMap fun a => if p a then some (g a) else none) =
      (l.filter fun a => decide (p a)).map g := by
  induction l with
  | nil => rfl
  | cons a t ih =>
    by_cases h : p a
    · simp [List.filterMap_cons, List.filter_cons, h, ih]
    · simp [List.filterMap_cons, List.filter_cons, h, ih]

/-- A `filterMap` whose function drops elements satisfying `p` is a `filter`
by the negation followed by a `map`. -/
theorem filterMap_drop_eq_map_filter {α β : Type} (p : α → Prop) [DecidablePred p]
    (g : α → β) (l : List α) :
    (l.filterMap fun a => if p a then none else some (g a)) =
      (l.filter fun a => !(decide (p a))).map g := by
  induction l with
  | nil => rfl
  | cons a t ih =>
    by_cases h : p a
    · simp [List.filterMap_cons, List.filter_cons, h, ih]
    · simp [List.filterMap_cons, List.filter_cons, h, ih]

/-- Stability of `mergeSort` restated through `filter`: elements that are
pairwise tied under the comparator come out in their input order. -/
theorem mergeSort_filter_of_tied {α : Type} (le : α → α → Bool) (l : List α) (p : α → Bool)
    (htrans : ∀ a b c, le a b → le b c → le a c)
    (htotal : ∀ a b, le a b || le b a)
    (htied : ∀ a b, p a → p b → le a b) :
    (l.mergeSort le).filter p = l.filter p := by
  have hpw : (l.filter p).Pairwise fun a b => le a b := by
    refine List.pairwise_of_forall_mem_list ?_
    intro a ha b hb
    exact htied a b (List.mem_filter.mp ha).2 (List.mem_filter.mp hb).2
  have hsub : List.Sublist (l.filter p) (l.mergeSort le) :=
    List.sublist_mergeSort htrans htotal hpw (List.filter_sublist l)
  have h2 : List.Sublist (l.filter p) ((l.mergeSort le).filter p) := by
    have h3 := hsub.filter p
    simpa [List.filter_filter] using h3
  have hperm : List.Perm ((l.mergeSort le).filter p) (l.filter p) :=
    (List.mergeSort_perm l le).filter p
  exact (h2.eq_of_length hperm.length_eq.symm).symm

/-- The search comparator is transitive. -/
theorem match_le_trans : ∀ a b c : FaceMatch, match_le a b → match_le b c → match_le a c := by
  intro a b c h1 h2
  simp only [match_le, decide_eq_true_eq] at h1 h2 ⊢
  exact le_trans h2 h1

/-- The search comparator is total. -/
theorem match_le_total : ∀ a b : FaceMatch, match_le a b || match_le b a := by
  intro a b
  simp only [match_le, Bool.or_eq_true, decide_eq_true_eq]
  exact le_total _ _

/-- The InsightFace comparator is transitive. -/
theorem raw_le_trans : ∀ a b c : InfraRecognition.RawIF,
    InfraRecognition.raw_le a b → InfraRecognition.raw_le b c → InfraRecognition.raw_le a c := by
  intro a b c h1 h2
  simp only [InfraRecognition.raw_le, decide_eq_true_eq] at h1 h2 ⊢
  exact le_trans h2 h1

/-- The InsightFace comparator is total. -/
theorem raw_le_total : ∀ a b : InfraRecognition.RawIF,
    InfraRecognition.raw_le a b || InfraRecognition.raw_le b a := by
  intro a b
  simp only [InfraRecognition.raw_le, Bool.or_eq_true, decide_eq_true_eq]
  exact le_total _ _

/-- Looking up an id after erasing it yields nothing. -/
theorem lookup_erase (store : Store) (cid : String) :
    Store.lookup (Store.erase store cid) cid = none := by
  induction store with
  | nil => rfl
  | cons p t ih =>
    by_cases h : p.1 = cid
    · simpa [Store.erase, List.filter_cons, h] using ih
    · have hb : (p.1 == cid) = false := by simpa using h
      have hb' : (cid == p.1) = false := by simpa using Ne.symm h
      simpa [Store.erase, Store.lookup, List.filter_cons, hb, List.lookup, hb'] using ih

/-- Appending no faces leaves the store unchanged. -/
theorem append_faces_nil (store : Store) (cid : String) :
    Store.append_faces store cid [] = store := by
  unfold Store.append_faces
  have h : ∀ p : String × List StoredFace,
      (if p.1 == cid then (p.1, p.2 ++ ([] : List StoredFace)) else p) = p := by
    intro p
    by_cases hp : p.1 == cid <;> simp [hp]
  calc store.map _ = store.map id := List.map_congr_left fun p _ => h p
    _ = store := List.map_id store

/-- Invariant of the recycling wrapper: the counter stays below the threshold,
the counter tracks the current instance's tally to within one, and no retired
instance ever served more than the threshold. -/
theorem wrapper_run_invariant (N : ℕ) (hN : 1 ≤ N) (n : ℕ) :
    (InfraRecognition.wrapper_run N n).call_count < N ∧
    (InfraRecognition.wrapper_run N n).cur_served ≤ (InfraRecognition.wrapper_run N n).call_count + 1 ∧
    (InfraRecognition.wrapper_run N n).call_count ≤ (InfraRecognition.wrapper_run N n).cur_served ∧
    (InfraRecognition.wrapper_run N n).prev_max_served ≤ N := by
  induction n with
  | zero =>
    simp only [InfraRecognition.wrapper_run, InfraRecognition.WrapperState.init]
    omega
  | succ n ih =>
    obtain ⟨h1, h2, h3, h4⟩ := ih
    simp only [InfraRecognition.wrapper_run, InfraRecognition.wrapper_get]
    by_cases h : N ≤ (InfraRecognition.wrapper_run N n).call_count + 1
    · rw [if_pos h]
      simp only
      omega
    · rw [if_neg h]
      simp only
      omega

/-!
Claim theorems.
-/

/-- C8: cosine similarity is symmetric for equal-length vectors, with
similarity defined as 0 whenever either vector has zero norm. -/
theorem cosine_similarity_comm (a b : List ℝ) (h : a.length = b.length) :
    cosine_similarity a b = cosine_similarity b a := by
  unfold cosine_similarity
  rw [np_dot_comm a b]
  by_cases hab : np_norm a = 0 ∨ np_norm b = 0
  · rw [if_pos hab, if_pos hab.symm]
  · rw [if_neg hab, if_neg fun hc => hab hc.symm, mul_comm]

/-- Witness for C8 at the toy vectors `[1, 0]` and `[0, 1]`. -/
theorem cosine_similarity_comm_witness :
    (([1, 0] : List ℝ).length = ([0, 1] : List ℝ).length) ∧
      cosine_similarity [1, 0] [0, 1] = cosine_similarity [0, 1] [1, 0] :=
  ⟨rfl, cosine_similarity_comm [1, 0] [0, 1] rfl⟩

/-- Counterexample to C7 as stated: with image width 0 but height 5, the
normalizer zeroes only the width-guarded outputs; `Height` is `3 / 5`, not 0,
so a single zero dimension does not force all four outputs to 0. -/
theorem to_aws_bbox_zero_width_counterexample :
    (to_aws_bbox ⟨0, 2, 0, 3⟩ 0 5).Height = 3 / 5 ∧
      (to_aws_bbox ⟨0, 2, 0, 3⟩ 0 5).Height ≠ 0 := by
  constructor
  · norm_num [to_aws_bbox]
  · norm_num [to_aws_bbox]

/-- C7 (amended): for an in-bounds box all four relative outputs lie in
`[0, 1]`; each output divided by a zero dimension is 0 (so if both dimensions
are zero all four outputs are 0); the function is total, hence never raises. -/
theorem to_aws_bbox_spec (bbox : PixelBBox) (iw ih : ℕ)
    (hx : 0 ≤ bbox.x) (hy : 0 ≤ bbox.y) (hw : 0 ≤ bbox.w) (hh : 0 ≤ bbox.h)
    (hxw : bbox.x + bbox.w ≤ (iw : ℝ)) (hyh : bbox.y + bbox.h ≤ (ih : ℝ)) :
    (0 ≤ (to_aws_bbox bbox iw ih).Left ∧ (to_aws_bbox bbox iw ih).Left ≤ 1) ∧
    (0 ≤ (to_aws_bbox bbox iw ih).Top ∧ (to_aws_bbox bbox iw ih).Top ≤ 1) ∧
    (0 ≤ (to_aws_bbox bbox iw ih).Width ∧ (to_aws_bbox bbox iw ih).Width ≤ 1) ∧
    (0 ≤ (to_aws_bbox bbox iw ih).Height ∧ (to_aws_bbox bbox iw ih).Height ≤ 1) ∧
    (iw = 0 → (to_aws_bbox bbox iw ih).Left = 0 ∧ (to_aws_bbox bbox iw ih).Width = 0) ∧
    (ih = 0 → (to_aws_bbox bbox iw ih).Top = 0 ∧ (to_aws_bbox bbox iw ih).Height = 0) ∧
    (iw = 0 → ih = 0 →
      (to_aws_bbox bbox iw ih).Left = 0 ∧ (to_aws_bbox bbox iw ih).Top = 0 ∧
      (to_aws_bbox bbox iw ih).Width = 0 ∧ (to_aws_bbox bbox iw ih).Height = 0) := by
  have key : ∀ (v : ℝ) (n : ℕ), 0 ≤ v → v ≤ (n : ℝ) →
      0 ≤ (if 0 < n then v / (n : ℝ) else 0) ∧ (if 0 < n then v / (n : ℝ) else 0) ≤ 1 := by
    intro v n h0 hvn
    by_cases hn : 0 < n
    · rw [if_pos hn]
      have hnp : (0 : ℝ) < (n : ℝ) := by exact_mod_cast hn
      exact ⟨div_nonneg h0 hnp.le, (div_le_one hnp).mpr hvn⟩
    · rw [if_neg hn]
      norm_num
  have hxle : bbox.x ≤ (iw : ℝ) := le_trans (le_add_of_nonneg_right hw) hxw
  have hwle : bbox.w ≤ (iw : ℝ) := le_trans (le_add_of_nonneg_left hx) hxw
  have hyle : bbox.y ≤ (ih : ℝ) := le_trans (le_add_of_nonneg_right hh) hyh
  have hhle : bbox.h ≤ (ih : ℝ) := le_trans (le_add_of_nonneg_left hy) hyh
  refine ⟨key bbox.x iw hx hxle, key bbox.y ih hy hyle, key bbox.w iw hw hwle,
    key bbox.h ih hh hhle, ?_, ?_, ?_⟩
  · intro hiw
    subst hiw
    simp [to_aws_bbox]
  · intro hih
    subst hih
    simp [to_aws_bbox]
  · intro hiw hih
    subst hiw
    subst hih
    simp [to_aws_bbox]

/-- Witness for C7 at an in-bounds box inside a 10 by 10 image. -/
theorem to_aws_bbox_spec_witness :
    0 ≤ (to_aws_bbox ⟨1, 2, 3, 4⟩ 10 10).Left ∧ (to_aws_bbox ⟨1, 2, 3, 4⟩ 10 10).Left ≤ 1 :=
  (to_aws_bbox_spec ⟨1, 2, 3, 4⟩ 10 10 (by norm_num) (by norm_num) (by norm_num)
    (by norm_num) (by norm_num) (by norm_num)).1

/-- C3: creating an existing id fails with 400 and leaves the store unchanged;
creating a fresh id inserts an empty collection; deleting an unknown id fails
with 404 `ResourceNotFoundException` leaving the store unchanged; deleting an
existing id removes the collection with all its face records, after which
lookups, index-faces and search on that id all fail with 404. -/
theorem collection_lifecycle (store : Store) (cid : String)
    (ireq : IndexFacesRequest) (sreq : SearchFacesByImageRequest) (uuid : ℕ → String) :
    ((Store.lookup store cid).isSome →
      create_collection store cid = (.error (.http 400 "Collection already exists"), store)) ∧
    (Store.lookup store cid = none →
      create_collection store cid =
        (.ok { StatusCode := 200, CollectionArn := "deepface:" ++ cid
               FaceModelVersion := "deepface-" ++ MODEL_NAME }, (cid, []) :: store) ∧
      Store.lookup ((cid, []) :: store) cid = some []) ∧
    (Store.lookup store cid = none →
      delete_collection store cid = (.error (.http 404 "ResourceNotFoundException"), store)) ∧
    ((Store.lookup store cid).isSome →
      delete_collection store cid = (.ok { StatusCode := 200 }, Store.erase store cid) ∧
      Store.lookup (Store.erase store cid) cid = none ∧
      index_faces (Store.erase store cid) cid ireq uuid =
        (.error (.http 404 "ResourceNotFoundException"), Store.erase store cid) ∧
      search_faces_by_image (Store.erase store cid) cid sreq =
        .error (.http 404 "ResourceNotFoundException")) := by
  refine ⟨?_, ?_, ?_, ?_⟩
  · intro h
    unfold create_collection
    rw [if_pos h]
  · intro h
    refine ⟨?_, ?_⟩
    · unfold create_collection
      rw [if_neg (by simp [h])]
    · simp [Store.lookup, List.lookup]
  · intro h
    unfold delete_collection
    rw [if_pos (by simp [h])]
  · intro h
    have he := lookup_erase store cid
    refine ⟨?_, he, ?_, ?_⟩
    · unfold delete_collection
      rw [if_neg (by simp [Option.isNone_iff_eq_none]; simpa [Option.isSome_iff_ne_none] using h)]
    · simp [index_faces, he]
    · simp [search_faces_by_image, he]

/-- Witness for C3 on the concrete `teamStore`. -/
theorem collection_lifecycle_witness :
    create_collection teamStore "team" =
      (.error (.http 400 "Collection already exists"), teamStore) ∧
    search_faces_by_image (Store.erase teamStore "team") "team" sreq_bad =
      .error (.http 404 "ResourceNotFoundException") :=
  ⟨(collection_lifecycle teamStore "team" ireq_bad sreq_bad uuid0).1 rfl,
   ((collection_lifecycle teamStore "team" ireq_bad sreq_bad uuid0).2.2.2 rfl).2.2.2⟩

/-- C2: with recycle threshold `N ≥ 1`, the wrapper's counter always stays
below `N` after a call; the call that finds the incremented counter at `N`
first reloads a fresh instance (new generation, counter reset) and that fresh
instance serves it; any other call is served by the same instance; and no
instance — current or retired — ever serves more than `N` inferences. -/
theorem wrapper_recycle_spec (N n : ℕ) (hN : 1 ≤ N) :
    ((InfraRecognition.wrapper_run N n).call_count < N ∧
     (InfraRecognition.wrapper_run N n).cur_served ≤ N ∧
     (InfraRecognition.wrapper_run N n).prev_max_served ≤ N) ∧
    (N ≤ (InfraRecognition.wrapper_run N n).call_count + 1 →
      (InfraRecognition.wrapper_get N (InfraRecognition.wrapper_run N n)).generation =
        (InfraRecognition.wrapper_run N n).generation + 1 ∧
      (InfraRecognition.wrapper_get N (InfraRecognition.wrapper_run N n)).call_count = 0 ∧
      (InfraRecognition.wrapper_get N (InfraRecognition.wrapper_run N n)).cur_served = 1) ∧
    ((InfraRecognition.wrapper_run N n).call_count + 1 < N →
      (InfraRecognition.wrapper_get N (InfraRecognition.wrapper_run N n)).generation =
        (InfraRecognition.wrapper_run N n).generation ∧
      (InfraRecognition.wrapper_get N (InfraRecognition.wrapper_run N n)).call_count =
        (InfraRecognition.wrapper_run N n).call_count + 1 ∧
      (InfraRecognition.wrapper_get N (InfraRecognition.wrapper_run N n)).cur_served =
        (InfraRecognition.wrapper_run N n).cur_served + 1) := by
  obtain ⟨h1, h2, h3, h4⟩ := wrapper_run_invariant N hN n
  refine ⟨⟨h1, by omega, h4⟩, ?_, ?_⟩
  · intro h
    unfold InfraRecognition.wrapper_get
    rw [if_pos h]
    exact ⟨rfl, rfl, rfl⟩
  · intro h
    unfold InfraRecognition.wrapper_get
    rw [if_neg (by omega)]
    exact ⟨rfl, rfl, rfl⟩

/-- Witness for C2 with threshold 2 after 3 calls. -/
theorem wrapper_recycle_spec_witness :
    (InfraRecognition.wrapper_run 2 3).call_count < 2 ∧
    (InfraRecognition.wrapper_run 2 3).cur_served ≤ 2 ∧
    (InfraRecognition.wrapper_run 2 3).prev_max_served ≤ 2 :=
  (wrapper_recycle_spec 2 3 (by decide)).1

/-- The search handler depends on its request only through the image and the
two numeric fields as consumed by `search_matches`. -/
theorem search_faces_by_image_congr (store : Store) (cid : String)
    (r1 r2 : SearchFacesByImageRequest) (hI : r1.Image = r2.Image)
    (hsm : ∀ e fs, search_matches e fs r1.FaceMatchThreshold r1.MaxFaces =
      search_matches e fs r2.FaceMatchThreshold r2.MaxFaces) :
    search_faces_by_image store cid r1 = search_faces_by_image store cid r2 := by
  unfold search_faces_by_image
  rw [hI]
  simp only [hsm]

/-- The index handler depends on its request only through the image, the
label, and the capped max-face count. -/
theorem index_faces_congr (store : Store) (cid : String) (uuid : ℕ → String)
    (r1 r2 : IndexFacesRequest) (hI : r1.Image = r2.Image)
    (hE : r1.ExternalImageId = r2.ExternalImageId)
    (hM : min (py_or_int r1.MaxFaces 100) MAX_FACES_PER_IMAGE =
      min (py_or_int r2.MaxFaces 100) MAX_FACES_PER_IMAGE) :
    index_faces store cid r1 uuid = index_faces store cid r2 uuid := by
  unfold index_faces
  rw [hI]
  simp only [hE, hM]

/-- C9: the extract endpoint rejects a request that supplies both or neither
of the two image sources (an empty string counting as absent) with a 400
`invalid_image` — independently of the backend, i.e. before any fetching,
decoding or extraction — and a request supplying exactly one source proceeds
into the corresponding branch.  The Modal deployment implements the identical
check. -/
theorem extract_xor_validation (B : InfraRecognition.IFBackend)
    (r : InfraRecognition.ExtractRequest) :
    (InfraRecognition.has_image r = InfraRecognition.has_url r →
      InfraRecognition.extract B r = .error (.http 400 "invalid_image")) ∧
    (r.image = none ∨ r.image = some "" → InfraRecognition.has_image r = false) ∧
    (r.image_url = none ∨ r.image_url = some "" → InfraRecognition.has_url r = false) ∧
    (InfraRecognition.has_image r = true → InfraRecognition.has_url r = false →
      InfraRecognition.extract B r = InfraRecognition.base64_branch B r) ∧
    (InfraRecognition.has_url r = true → InfraRecognition.has_image r = false →
      InfraRecognition.extract B r = InfraRecognition.url_branch B r) := by
  refine ⟨?_, ?_, ?_, ?_, ?_⟩
  · intro h
    simp [InfraRecognition.extract, h]
  · intro h
    rcases h with h | h <;> simp [InfraRecognition.has_image, h]
  · intro h
    rcases h with h | h <;> simp [InfraRecognition.has_url, h]
  · intro h1 h2
    simp [InfraRecognition.extract, h1, h2]
  · intro h1 h2
    simp [InfraRecognition.extract, h1, h2]

/-- Witness for C9: both sources given, and neither source given (the URL an
empty string), are each rejected with 400 `invalid_image`. -/
theorem extract_xor_validation_witness :
    InfraRecognition.extract B0 req_both = .error (.http 400 "invalid_image") ∧
    InfraRecognition.extract B0 req_neither = .error (.http 400 "invalid_image") :=
  ⟨(extract_xor_validation B0 req_both).1 rfl,
   (extract_xor_validation B0 req_neither).1 rfl⟩

/-- C10: an explicit zero for an optional numeric field behaves like the
absent field: search with `FaceMatchThreshold = 0` behaves as with the default
threshold 80 (and as with the field absent), search with `MaxFaces = 0`
behaves as with the default cap 20, and index-faces with `MaxFaces = 0`
behaves as with 100. -/
theorem zero_numeric_defaults :
    (∀ (store : Store) (cid : String) (img : PyImage) (mfo : Option ℤ),
      search_faces_by_image store cid ⟨img, mfo, some 0⟩ =
        search_faces_by_image store cid ⟨img, mfo, some 80⟩ ∧
      search_faces_by_image store cid ⟨img, mfo, some 0⟩ =
        search_faces_by_image store cid ⟨img, mfo, none⟩) ∧
    (∀ (store : Store) (cid : String) (img : PyImage) (tho : Option ℝ),
      search_faces_by_image store cid ⟨img, some 0, tho⟩ =
        search_faces_by_image store cid ⟨img, some 20, tho⟩) ∧
    (∀ (store : Store) (cid : String) (img : PyImage) (ext : String) (uuid : ℕ → String),
      index_faces store cid ⟨img, ext, some 0⟩ uuid =
        index_faces store cid ⟨img, ext, some 100⟩ uuid) := by
  have hth0 : py_or_float (some 0) 80 = 80 := by
    simp [py_or_float]
  have hth80 : py_or_float (some 80) 80 = 80 := by
    norm_num [py_or_float]
  have hthn : py_or_float none 80 = 80 := by
    simp [py_or_float]
  refine ⟨?_, ?_, ?_⟩
  · intro store cid img mfo
    constructor
    · refine search_faces_by_image_congr store cid _ _ rfl ?_
      intro e fs
      simp only [search_matches, hth0, hth80]
    · refine search_faces_by_image_congr store cid _ _ rfl ?_
      intro e fs
      simp only [search_matches, hth0, hthn]
  · intro store cid img tho
    refine search_faces_by_image_congr store cid _ _ rfl ?_
    intro e fs
    simp only [search_matches]
    rw [show py_or_int (some 0) 20 = py_or_int (some 20) 20 from by decide]
  · intro store cid img ext uuid
    exact index_faces_congr store cid uuid ⟨img, ext, some 0⟩ ⟨img, ext, some 100⟩
      rfl rfl
      (show min (py_or_int (some 0) 100) MAX_FACES_PER_IMAGE =
          min (py_or_int (some 100) 100) MAX_FACES_PER_IMAGE by decide)

/-- Witness for C10 on the concrete store and query image. -/
theorem zero_numeric_defaults_witness :
    search_faces_by_image teamStore "team" ⟨.ok query_img, some 20, some 0⟩ =
      search_faces_by_image teamStore "team" ⟨.ok query_img, some 20, some 80⟩ :=
  (zero_numeric_defaults.1 teamStore "team" (.ok query_img) (some 20)).1

/-- Counterexample to C5 as stated: in the DeepFace service an undecodable
image makes `decode_image` raise inside the handler; the exception escapes
(surfacing as the framework's 500), which is not a 4xx client error.  The
store is nevertheless untouched. -/
theorem invalid_image_500_counterexample :
    index_faces teamStore "team" ireq_bad uuid0 = (.error .unhandled, teamStore) ∧
    search_faces_by_image teamStore "team" sreq_bad = .error .unhandled ∧
    HError.statusCode .unhandled = 500 ∧
    ¬ is_client_error (HError.statusCode .unhandled) := by
  refine ⟨rfl, rfl, rfl, ?_⟩
  simp [is_client_error, HError.statusCode]

/-- C5 (amended): on undecodable image bytes the DeepFace index-faces and
search handlers let the decode exception escape — surfaced by the framework
as a 500, not a 4xx — while leaving the store completely unchanged; the
InsightFace extract endpoint instead returns the client error 400
`invalid_image`.  No path crashes the service. -/
theorem invalid_image_behavior
    (store : Store) (cid : String) (ireq : IndexFacesRequest)
    (sreq : SearchFacesByImageRequest) (uuid : ℕ → String)
    (B : InfraRecognition.IFBackend) (r : InfraRecognition.ExtractRequest) (s : String)
    (hok : (Store.lookup store cid).isSome)
    (hi : decode_image ireq.Image = .error ())
    (hs : decode_image sreq.Image = .error ())
    (hr : r.image = some s) (hsl : 0 < s.length)
    (hru : InfraRecognition.has_url r = false)
    (hsz : ¬ InfraRecognition.MAX_IMAGE_BYTES < s.length * 3 / 4)
    (hdec : B.decode64 s = .error ()) :
    index_faces store cid ireq uuid = (.error .unhandled, store) ∧
    search_faces_by_image store cid sreq = .error .unhandled ∧
    HError.statusCode .unhandled = 500 ∧
    InfraRecognition.extract B r = .error (.http 400 "invalid_image") ∧
    is_client_error 400 := by
  obtain ⟨fs, hfs⟩ := Option.isSome_iff_exists.mp hok
  have himg : InfraRecognition.has_image r = true := by
    simp [InfraRecognition.has_image, hr, hsl]
  refine ⟨?_, ?_, rfl, ?_, by simp [is_client_error]⟩
  · simp [index_faces, hfs, hi]
  · simp [search_faces_by_image, hfs, hs]
  · simp [InfraRecognition.extract, himg, hru, InfraRecognition.base64_branch, hr, hsz, hdec]

/-- Witness for C5 on concrete undecodable inputs. -/
theorem invalid_image_behavior_witness :
    index_faces teamStore "team" ireq_bad uuid0 = (.error .unhandled, teamStore) ∧
    search_faces_by_image teamStore "team" sreq_bad = .error .unhandled ∧
    HError.statusCode .unhandled = 500 ∧
    InfraRecognition.extract B0 req_b64 = .error (.http 400 "invalid_image") ∧
    is_client_error 400 :=
  invalid_image_behavior teamStore "team" ireq_bad sreq_bad uuid0 B0 req_b64 "abcd"
    rfl rfl rfl rfl (by decide) rfl (by decide) rfl

/-- C6: zero qualifying detected faces — including the case where the backend
raises and `extract_faces` absorbs it as `[]` — make index-faces answer
success with empty `FaceRecords` and `UnindexedFaces` (store unchanged) and
make search answer success with empty matches, zero confidence and an empty
bounding box; neither is an error. -/
theorem empty_detection_success
    (store : Store) (cid : String) (ireq : IndexFacesRequest)
    (sreq : SearchFacesByImageRequest) (uuid : ℕ → String)
    (imgI imgS : DFImage) (fs : List StoredFace)
    (hcoll : Store.lookup store cid = some fs)
    (hi : decode_image ireq.Image = .ok imgI)
    (hs : decode_image sreq.Image = .ok imgS) :
    (∀ mf : ℤ, imgI.represent = .error () → extract_faces imgI mf = []) ∧
    (extract_faces imgI (min (py_or_int ireq.MaxFaces 100) MAX_FACES_PER_IMAGE) = [] →
      index_faces store cid ireq uuid =
        (.ok { FaceRecords := [], UnindexedFaces := []
               FaceModelVersion := "deepface-" ++ MODEL_NAME }, store)) ∧
    (extract_faces imgS 1 = [] →
      search_faces_by_image store cid sreq =
        .ok { SearchedFaceBoundingBox := none, SearchedFaceConfidence := 0, FaceMatches := []
              FaceModelVersion := "deepface-" ++ MODEL_NAME }) := by
  refine ⟨?_, ?_, ?_⟩
  · intro mf herr
    simp [extract_faces, herr]
  · intro hempty
    simp [index_faces, hcoll, hi, hempty, mint_records, mint_stored, append_faces_nil]
  · intro hempty
    simp [search_faces_by_image, hcoll, hs, hempty]

/-- Witness for C6 on a decodable image with zero detected faces. -/
theorem empty_detection_success_witness :
    index_faces teamStore "team" ireq_empty uuid0 =
      (.ok { FaceRecords := [], UnindexedFaces := []
             FaceModelVersion := "deepface-" ++ MODEL_NAME }, teamStore) ∧
    search_faces_by_image teamStore "team" sreq_empty =
      .ok { SearchedFaceBoundingBox := none, SearchedFaceConfidence := 0, FaceMatches := []
            FaceModelVersion := "deepface-" ++ MODEL_NAME } := by
  have h := empty_detection_success teamStore "team" ireq_empty sreq_empty uuid0
    img_empty img_empty [e1_face, e2_face] rfl rfl rfl
  exact ⟨h.2.1 rfl, h.2.2 rfl⟩

/-- C1: when the collection exists, the query image decodes, a query face is
detected, and the request supplies a nonzero threshold and a positive cap
(zero-valued fields fall back to defaults, see the C10 theorem), search
succeeds and its `FaceMatches` are exactly the stored records whose cosine
similarity to the query embedding is at least `FaceMatchThreshold / 100`
(boundary inclusive): the list has `min k MaxFaces` entries for `k` qualifying
records, is sorted by `Similarity` descending, ties keep encounter order
(stable sort), every entry carries the internal similarity times 100, every
entry comes from a qualifying stored record, and when `k ≤ MaxFaces` it is a
permutation of (exactly) the qualifying records. -/
theorem search_filter_sort_truncate
    (store : Store) (cid : String) (request : SearchFacesByImageRequest)
    (stored_faces : List StoredFace) (img : DFImage) (q : DetFace) (qs : List DetFace)
    (th : ℝ) (mf : ℤ)
    (hcoll : Store.lookup store cid = some stored_faces)
    (himg : decode_image request.Image = .ok img)
    (hdet : extract_faces img 1 = q :: qs)
    (hth : request.FaceMatchThreshold = some th) (hth0 : th ≠ 0)
    (hmf : request.MaxFaces = some mf) (hmf0 : 0 < mf) :
    ∃ resp : SearchResponse,
      search_faces_by_image store cid request = .ok resp ∧
      resp.FaceMatches.length =
        min (qualifying_matches q.embedding (th / 100) stored_faces).length mf.toNat ∧
      resp.FaceMatches.Pairwise (fun a b => b.Similarity ≤ a.Similarity) ∧
      (∀ m ∈ resp.FaceMatches, ∃ s ∈ stored_faces,
        th / 100 ≤ cosine_similarity q.embedding s.embedding ∧
        m = mk_face_match q.embedding s ∧
        m.Similarity = cosine_similarity q.embedding s.embedding * 100) ∧
      ((qualifying_matches q.embedding (th / 100) stored_faces).length ≤ mf.toNat →
        List.Perm resp.FaceMatches (qualifying_matches q.embedding (th / 100) stored_faces)) ∧
      (∀ v : ℝ, ∃ rest,
        (qualifying_matches q.embedding (th / 100) stored_faces).filter
            (fun m => decide (m.Similarity = v)) =
          resp.FaceMatches.filter (fun m => decide (m.Similarity = v)) ++ rest) := by
  have hresp : search_faces_by_image store cid request =
      .ok { SearchedFaceBoundingBox := some (to_aws_bbox q.bbox img.width img.height)
            SearchedFaceConfidence := q.confidence * 100
            FaceMatches := search_matches q.embedding stored_faces (some th) (some mf)
            FaceModelVersion := "deepface-" ++ MODEL_NAME } := by
    unfold search_faces_by_image
    simp only [hcoll, himg, hdet, hth, hmf]
  have hmf' : mf ≠ 0 := by omega
  have hs1 : py_or_float (some th) 80 = th := by simp [py_or_float, hth0]
  have hs2 : py_or_int (some mf) 20 = mf := by simp [py_or_int, hmf']
  have hkey : search_matches q.embedding stored_faces (some th) (some mf) =
      ((qualifying_matches q.embedding (th / 100) stored_faces).mergeSort match_le).take
        mf.toNat := by
    unfold search_matches
    simp only [hs1, hs2]
    unfold pyslice qualifying_matches
    rw [if_pos (le_of_lt hmf0)]
  have hSorted := List.sorted_mergeSort match_le_trans match_le_total
    (qualifying_matches q.embedding (th / 100) stored_faces)
  refine ⟨_, hresp, ?_, ?_, ?_, ?_, ?_⟩
  · show (search_matches q.embedding stored_faces (some th) (some mf)).length = _
    rw [hkey, List.length_take, List.length_mergeSort, Nat.min_comm]
  · show (search_matches q.embedding stored_faces (some th) (some mf)).Pairwise _
    rw [hkey]
    have h2 := List.Pairwise.sublist (List.take_sublist mf.toNat _) hSorted
    exact h2.imp fun hab => by simpa [match_le, decide_eq_true_eq] using hab
  · show ∀ m ∈ search_matches q.embedding stored_faces (some th) (some mf), _
    rw [hkey]
    intro m hm
    have hm2 : m ∈ qualifying_matches q.embedding (th / 100) stored_faces :=
      List.mem_mergeSort.mp (List.mem_of_mem_take hm)
    unfold qualifying_matches at hm2
    rcases List.mem_map.mp hm2 with ⟨s, hsf, rfl⟩
    rcases List.mem_filter.mp hsf with ⟨hs_mem, hs_cond⟩
    exact ⟨s, hs_mem, of_decide_eq_true hs_cond, rfl, rfl⟩
  · show (qualifying_matches q.embedding (th / 100) stored_faces).length ≤ mf.toNat →
      List.Perm (search_matches q.embedding stored_faces (some th) (some mf)) _
    intro hk
    rw [hkey, List.take_of_length_le (by rwa [List.length_mergeSort])]
    exact List.mergeSort_perm _ match_le
  · show ∀ v : ℝ, ∃ rest, _ =
      (search_matches q.embedding stored_faces (some th) (some mf)).filter _ ++ rest
    intro v
    rw [hkey]
    refine ⟨(((qualifying_matches q.embedding (th / 100) stored_faces).mergeSort
      match_le).drop mf.toNat).filter (fun m => decide (m.Similarity = v)), ?_⟩
    have htied : ∀ a b : FaceMatch, decide (a.Similarity = v) → decide (b.Similarity = v) →
        match_le a b := by
      intro a b ha hb
      have ha' : a.Similarity = v := of_decide_eq_true ha
      have hb' : b.Similarity = v := of_decide_eq_true hb
      simp [match_le, ha', hb']
    have heq := mergeSort_filter_of_tied match_le
      (qualifying_matches q.embedding (th / 100) stored_faces)
      (fun m => decide (m.Similarity = v)) match_le_trans match_le_total htied
    calc (qualifying_matches q.embedding (th / 100) stored_faces).filter
          (fun m => decide (m.Similarity = v))
        = ((qualifying_matches q.embedding (th / 100) stored_faces).mergeSort
            match_le).filter (fun m => decide (m.Similarity = v)) := heq.symm
      _ = (((qualifying_matches q.embedding (th / 100) stored_faces).mergeSort
            match_le).take mf.toNat ++
          ((qualifying_matches q.embedding (th / 100) stored_faces).mergeSort
            match_le).drop mf.toNat).filter (fun m => decide (m.Similarity = v)) := by
          rw [List.take_append_drop]
      _ = _ := by rw [List.filter_append]

/-- Witness for C1 on the spec's concrete scenario: collection `"team"` with
`e1 = [1, 0]` and `e2 = [0, 1]`, query embedding `[1, 0]`, threshold 80,
cap 20. -/
theorem search_filter_sort_truncate_witness :
    ∃ resp : SearchResponse,
      search_faces_by_image teamStore "team" search_req = .ok resp ∧
      resp.FaceMatches.length =
        min (qualifying_matches q_face.embedding ((80 : ℝ) / 100) [e1_face, e2_face]).length
          (20 : ℤ).toNat ∧
      resp.FaceMatches.Pairwise (fun a b => b.Similarity ≤ a.Similarity) ∧
      (∀ m ∈ resp.FaceMatches, ∃ s ∈ [e1_face, e2_face],
        (80 : ℝ) / 100 ≤ cosine_similarity q_face.embedding s.embedding ∧
        m = mk_face_match q_face.embedding s ∧
        m.Similarity = cosine_similarity q_face.embedding s.embedding * 100) ∧
      ((qualifying_matches q_face.embedding ((80 : ℝ) / 100) [e1_face, e2_face]).length ≤
          (20 : ℤ).toNat →
        List.Perm resp.FaceMatches
          (qualifying_matches q_face.embedding ((80 : ℝ) / 100) [e1_face, e2_face])) ∧
      (∀ v : ℝ, ∃ rest,
        (qualifying_matches q_face.embedding ((80 : ℝ) / 100) [e1_face, e2_face]).filter
            (fun m => decide (m.Similarity = v)) =
          resp.FaceMatches.filter (fun m => decide (m.Similarity = v)) ++ rest) := by
  have h59 : MIN_CONFIDENCE ≤ (0.9 : ℝ) := by
    norm_num [MIN_CONFIDENCE]
  have hdet : extract_faces query_img 1 = q_face :: [] := by
    simp [extract_faces, query_img, pyslice, q_face, query_raw, List.filterMap_cons, h59]
  exact search_filter_sort_truncate teamStore "team" search_req [e1_face, e2_face]
    query_img q_face [] 80 20 rfl rfl hdet rfl (by norm_num) rfl (by norm_num)

/-- Counterexample to C4 as stated: the DeepFace-service extractor (the one
the search operation invokes) does not sort; on a backend list reporting a
0.6-confidence face before a 0.9-confidence face it returns them unsorted,
and with `max_faces = 1` the sole face participating in search is the
0.6-confidence one although a 0.9-confidence face was detected. -/
theorem extractor_unsorted_counterexample :
    extract_faces unsorted_img 100 =
      [{ embedding := [1, 0], bbox := bb0, confidence := 0.6 },
       { embedding := [0, 1], bbox := bb0, confidence := 0.9 }] ∧
    ¬ (extract_faces unsorted_img 100).Pairwise (fun f g => g.confidence ≤ f.confidence) ∧
    extract_faces unsorted_img 1 = [{ embedding := [1, 0], bbox := bb0, confidence := 0.6 }] ∧
    (0.6 : ℝ) < 0.9 := by
  have h56 : MIN_CONFIDENCE ≤ (0.6 : ℝ) := by norm_num [MIN_CONFIDENCE]
  have h59 : MIN_CONFIDENCE ≤ (0.9 : ℝ) := by norm_num [MIN_CONFIDENCE]
  have he : extract_faces unsorted_img 100 =
      [{ embedding := [1, 0], bbox := bb0, confidence := 0.6 },
       { embedding := [0, 1], bbox := bb0, confidence := 0.9 }] := by
    simp [extract_faces, unsorted_img, pyslice, raw_u1, raw_u2, List.filterMap_cons, h56, h59]
  have he1 : extract_faces unsorted_img 1 =
      [{ embedding := [1, 0], bbox := bb0, confidence := 0.6 }] := by
    simp [extract_faces, unsorted_img, pyslice, raw_u1, raw_u2, List.filterMap_cons, h56]
  refine ⟨he, ?_, he1, by norm_num⟩
  rw [he]
  intro hpw
  have h1 := (List.pairwise_cons.mp hpw).1 _ (List.mem_cons_self _ _)
  norm_num at h1

/-- C4 (amended): the InsightFace extractor returns the backend faces sorted
by descending detection confidence, truncated to `max_faces`, excluding every
face below the minimum confidence, all drawn from the backend list, and with
`max_faces = 1` only a face of maximal detection score survives; the DeepFace
extractor — the one the search operation invokes with `max_faces = 1` —
truncates and filters but does not sort, so the sole search query face is the
backend's first-reported face, which is a highest-confidence face exactly
when the backend reports faces in descending-confidence order. -/
theorem extractor_sort_truncate_filter
    (analysis : Except Unit (List InfraRecognition.RawIF))
    (raws : List InfraRecognition.RawIF) (mf : ℤ) (minc : ℝ)
    (img : DFImage) (r0 : RawDF) (rest : List RawDF)
    (hmf : 0 ≤ mf) (hok : analysis = .ok raws) (hrep : img.represent = .ok (r0 :: rest)) :
    (InfraRecognition.extract_faces analysis mf minc).Pairwise
      (fun f g => g.confidence ≤ f.confidence) ∧
    (InfraRecognition.extract_faces analysis mf minc).length ≤ mf.toNat ∧
    (∀ f ∈ InfraRecognition.extract_faces analysis mf minc, minc ≤ f.confidence) ∧
    (∀ f ∈ InfraRecognition.extract_faces analysis mf minc, ∃ rf ∈ raws,
      f.confidence = rf.det_score ∧ f.embedding = rf.embedding) ∧
    (∀ f ∈ InfraRecognition.extract_faces analysis 1 minc, ∀ rf ∈ raws,
      rf.det_score ≤ f.confidence) ∧
    (∀ f ∈ extract_faces img 1,
      f = { embedding := r0.embedding, bbox := r0.facial_area
            confidence := r0.face_confidence }) ∧
    ((r0 :: rest).Pairwise (fun a b => b.face_confidence ≤ a.face_confidence) →
      ∀ rf ∈ r0 :: rest, rf.face_confidence ≤ r0.face_confidence) := by
  subst hok
  have hsortedraw := List.sorted_mergeSort raw_le_trans raw_le_total raws
  have hef : ∀ n : ℤ, 0 ≤ n →
      InfraRecognition.extract_faces (.ok raws) n minc =
      (((raws.mergeSort InfraRecognition.raw_le).take n.toNat).filter
          (fun f => !(decide (f.det_score < minc)))).map
        (fun f => { embedding := f.embedding
                    bbox := { x := f.x1, y := f.y1, w := f.x2 - f.x1, h := f.y2 - f.y1 }
                    confidence := f.det_score }) := by
    intro n hn
    have h1 : InfraRecognition.extract_faces (.ok raws) n minc =
        (pyslice n (raws.mergeSort InfraRecognition.raw_le)).filterMap
          (fun f => if f.det_score < minc then none
            else some { embedding := f.embedding
                        bbox := { x := f.x1, y := f.y1, w := f.x2 - f.x1, h := f.y2 - f.y1 }
                        confidence := f.det_score }) := rfl
    rw [h1]
    unfold pyslice
    rw [if_pos hn]
    exact filterMap_drop_eq_map_filter _ _ _
  refine ⟨?_, ?_, ?_, ?_, ?_, ?_, ?_⟩
  · rw [hef mf hmf]
    have hp1 := List.Pairwise.sublist (List.take_sublist mf.toNat _) hsortedraw
    have hp2 : (((raws.mergeSort InfraRecognition.raw_le).take mf.toNat).filter
        (fun f => !(decide (f.det_score < minc)))).Pairwise
        (fun a b => InfraRecognition.raw_le a b = true) :=
      List.Pairwise.sublist (List.filter_sublist _) hp1
    exact List.pairwise_map.mpr (hp2.imp fun hab => of_decide_eq_true hab)
  · rw [hef mf hmf, List.length_map]
    calc (((raws.mergeSort InfraRecognition.raw_le).take mf.toNat).filter _).length
        ≤ ((raws.mergeSort InfraRecognition.raw_le).take mf.toNat).length :=
          List.length_filter_le _ _
      _ ≤ mf.toNat := by rw [List.length_take]; exact Nat.min_le_left _ _
  · rw [hef mf hmf]
    intro f hf
    rcases List.mem_map.mp hf with ⟨rf, hrf, rfl⟩
    have hcond := (List.mem_filter.mp hrf).2
    have : ¬ rf.det_score < minc := by
      simpa using hcond
    exact not_lt.mp this
  · rw [hef mf hmf]
    intro f hf
    rcases List.mem_map.mp hf with ⟨rf, hrf, rfl⟩
    have hmem : rf ∈ raws :=
      List.mem_mergeSort.mp (List.mem_of_mem_take (List.mem_filter.mp hrf).1)
    exact ⟨rf, hmem, rfl, rfl⟩
  · rw [hef 1 (by norm_num)]
    intro f hf rf hrf
    have hrf' : rf ∈ raws.mergeSort InfraRecognition.raw_le := List.mem_mergeSort.mpr hrf
    cases hms : raws.mergeSort InfraRecognition.raw_le with
    | nil => rw [hms] at hf; simp at hf
    | cons s0 t =>
      rw [hms] at hf hrf'
      have ht1 : ((s0 :: t).take (Int.toNat 1)) = [s0] := by simp
      rw [ht1] at hf
      rcases List.mem_map.mp hf with ⟨rf', hrf2, rfl⟩
      have hs0 : rf' = s0 := by
        have := (List.mem_filter.mp hrf2).1
        simpa using this
      subst hs0
      rw [hms] at hsortedraw
      rcases List.mem_cons.mp hrf' with h | h
      · subst h; exact le_refl _
      · exact of_decide_eq_true ((List.pairwise_cons.mp hsortedraw).1 rf h)
  · intro f hf
    have hps : pyslice 1 (r0 :: rest) = [r0] := by
      unfold pyslice
      rw [if_pos (by norm_num)]
      simp
    have h1 : extract_faces img 1 = [r0].filterMap
        (fun r => if MIN_CONFIDENCE ≤ r.face_confidence then
          some { embedding := r.embedding, bbox := r.facial_area
                 confidence := r.face_confidence }
          else none) := by
      unfold extract_faces
      rw [hrep]
      show (pyslice 1 (r0 :: rest)).filterMap _ = _
      rw [hps]
    rw [h1] at hf
    by_cases hc : MIN_CONFIDENCE ≤ r0.face_confidence
    · simp only [List.filterMap_cons, if_pos hc, List.filterMap_nil] at hf
      simpa using hf
    · simp only [List.filterMap_cons, if_neg hc, List.filterMap_nil] at hf
      simp at hf
  · intro hpw rf hrf
    rcases List.mem_cons.mp hrf with h | h
    · subst h; exact le_refl _
    · exact (List.pairwise_cons.mp hpw).1 rf h

/-- Witness for C4 on a concrete two-face backend list. -/
theorem extractor_sort_truncate_filter_witness :
    (InfraRecognition.extract_faces (.ok [iraw_lo, iraw_hi]) 2 0.5).Pairwise
      (fun f g => g.confidence ≤ f.confidence) ∧
    (InfraRecognition.extract_faces (.ok [iraw_lo, iraw_hi]) 2 0.5).length ≤ (2 : ℤ).toNat ∧
    ∀ f ∈ InfraRecognition.extract_faces (.ok [iraw_lo, iraw_hi]) 2 0.5,
      (0.5 : ℝ) ≤ f.confidence := by
  have h := extractor_sort_truncate_filter (.ok [iraw_lo, iraw_hi]) [iraw_lo, iraw_hi]
    2 0.5 unsorted_img raw_u1 [raw_u2] (by norm_num) rfl rfl
  exact ⟨h.1, h.2.1, h.2.2.1⟩
